import Mathlib

/-!
Shallow embedding of `src/canfix/messages/nodespecific.py` (python-canfix).

Python objects become Lean structures; attributes that may be unset become
`Option` fields (reading an unset attribute raises `AttributeError`).
Python exceptions become an explicit error type threaded through `Except`.
Machine bytes are `Nat` values below 256; payloads are `List Nat`.
Field setters (Python properties) take `Int` arguments, as Python ints can
be negative; a validated value is stored via `Int.toNat` (lossless, since
validation forces it nonnegative).
-/

/-- Request/response role marker (globals `MSG_REQUEST` / `MSG_RESPONSE`). -/
inductive MsgType where
  | request
  | response
deriving DecidableEq

/-- Bit-rate-set response status (globals `MSG_SUCCESS` / `MSG_FAIL`). -/
inductive MsgStatus where
  | success
  | fail
deriving DecidableEq

/-- The Python exceptions the module can raise. -/
inductive PyError where
  | msgSizeError
  | assertionError
  | indexError
  | attributeError
  | typeError
  | unboundLocalError
  | valueError (msg : String)
deriving DecidableEq

deriving instance DecidableEq for Except

/-- A CAN frame as the module sees it: an arbitration id and a payload of
bytes.  `msg.dlc` equals the payload length for frames handled here. -/
structure CanMessage where
  arbitration_id : Int
  data : List Nat
deriving DecidableEq

/-- `msg.dlc`: the data length code, i.e. the payload byte count. -/
def CanMessage.dlc (m : CanMessage) : Nat := m.data.length

/-- Python sequence indexing `l[i]`: raises `IndexError` out of range. -/
def pyIndex {α : Type} (l : List α) (i : Nat) : Except PyError α :=
  match l.get? i with
  | some x => Except.ok x
  | none => Except.error PyError.indexError

/-- Reading a Python attribute that may be unset: raises `AttributeError`. -/
def attrGet {α : Type} (o : Option α) : Except PyError α :=
  match o with
  | some x => Except.ok x
  | none => Except.error PyError.attributeError

/-- `str(x)` for an optional integer attribute (`str(None) = "None"`). -/
def optStr (o : Option Int) : String :=
  match o with
  | some v => toString v
  | none => "None"

/-- `str(x)` for an optional natural-number attribute. -/
def optNatStr (o : Option Nat) : String :=
  match o with
  | some v => toString v
  | none => "None"

/-! ## Generic Node Specific envelope (`class NodeSpecific`) -/

/-- State of a generic `NodeSpecific` object after decoding a frame. -/
structure NodeSpecific where
  sendNode : Option Int
  controlCode : Nat
  data : List Nat
deriving DecidableEq

/-- `NodeSpecific.codes`: the fixed control-code name table (codes 0–19). -/
def NodeSpecific.codes : List String :=
  ["Node Identification", "Bit Rate Set", "Node ID Set", "Disable Parameter",
   "Enable Parameter", "Node Report", "Node Status", "Update Firmware",
   "Connection Request", "Node Configuration Set", "Node Configuration Query",
   "Node Description", "Parameter Set 0", "Parameter Set 32", "Parameter Set 64",
   "Parameter Set 96", "Parameter Set 128", "Parameter Set 160", "Parameter Set 192",
   "Parameter Set 224"]

/-- `NodeSpecific.setMessage`: `sendNode = arbitration_id - 1792`,
`controlCode = data[0]`, `data = data[1:]`.  The only failure is the
`IndexError` from `msg.data[0]` on an empty payload; there is no check on
the resulting `sendNode`. -/
def NodeSpecific.setMessage (msg : CanMessage) : Except PyError NodeSpecific := do
  let c0 ← pyIndex msg.data 0
  Except.ok { sendNode := some (msg.arbitration_id - 1792)
              controlCode := c0
              data := msg.data.drop 1 }

/-- The control-code name selection inside `NodeSpecific.__str__`:
`codes[controlCode]` when the index is in range, otherwise the
`IndexError` handler produces `"Reserved NSM <code>"` for codes below 128
and `"User Defined NSM <code>"` for the rest. -/
def describeCode (c : Nat) : String :=
  match NodeSpecific.codes.get? c with
  | some s => s
  | none =>
      if c < 128 then "Reserved NSM " ++ toString c
      else "User Defined NSM " ++ toString c

/-! ## Node Identification (`class NodeIdentification`, control code 0) -/

/-- State of a `NodeIdentification` object. -/
structure NodeIdentification where
  sendNode : Option Int
  destNode : Option Nat
  controlCode : Nat
  msgType : MsgType
  device : Option Nat
  fwrev : Option Nat
  model : Option Nat
deriving DecidableEq

/-- `NodeIdentification.__init__` with no frame and no field arguments. -/
def NodeIdentification.init : NodeIdentification :=
  { sendNode := none, destNode := none, controlCode := 0x00,
    msgType := MsgType.request, device := none, fwrev := none, model := none }

/-- `NodeIdentification.setDevice`: rejects values outside 0..255 with
`ValueError`, otherwise stores the value and forces `msgType = RESPONSE`. -/
def NodeIdentification.setDevice (e : NodeIdentification) (device : Int) :
    Except PyError NodeIdentification :=
  if device > 255 ∨ device < 0 then
    Except.error (PyError.valueError "Device ID must be between 0 and 255")
  else
    Except.ok { e with device := some device.toNat, msgType := MsgType.response }

/-- `NodeIdentification.setFwrev`: rejects values outside 0..255 with
`ValueError`, otherwise stores the value and forces `msgType = RESPONSE`. -/
def NodeIdentification.setFwrev (e : NodeIdentification) (fwrev : Int) :
    Except PyError NodeIdentification :=
  if fwrev > 255 ∨ fwrev < 0 then
    Except.error (PyError.valueError "Firmware Revision must be between 0 and 255")
  else
    Except.ok { e with fwrev := some fwrev.toNat, msgType := MsgType.response }

/-- `NodeIdentification.setModel`: rejects values outside 0..0xFFFFFF with
`ValueError`, otherwise stores the value and forces `msgType = RESPONSE`. -/
def NodeIdentification.setModel (e : NodeIdentification) (model : Int) :
    Except PyError NodeIdentification :=
  if model < 0 ∨ model > 0xFFFFFF then
    Except.error (PyError.valueError "Model must be between 0 and 0xFFFFFF")
  else
    Except.ok { e with model := some model.toNat, msgType := MsgType.response }

/-- `NodeIdentification.setMessage`: asserts `data[0] == 0`, reads
`destNode = data[1]`, then dispatches on the payload length: 2 bytes is a
REQUEST, 8 bytes is a RESPONSE whose fields are assigned through the
property setters (`self.device = msg.data[3]`, ...), anything else raises
`MsgSizeError`. -/
def NodeIdentification.setMessage (msg : CanMessage) :
    Except PyError NodeIdentification := do
  let c0 ← pyIndex msg.data 0
  if c0 = 0x00 then
    let d1 ← pyIndex msg.data 1
    let base : NodeIdentification :=
      { sendNode := some (msg.arbitration_id - 1792), destNode := some d1,
        controlCode := c0, msgType := MsgType.request,
        device := none, fwrev := none, model := none }
    if msg.dlc = 2 then
      Except.ok { base with msgType := MsgType.request }
    else if msg.dlc = 8 then do
      let b3 ← pyIndex msg.data 3
      let b4 ← pyIndex msg.data 4
      let b5 ← pyIndex msg.data 5
      let b6 ← pyIndex msg.data 6
      let b7 ← pyIndex msg.data 7
      let e0 := { base with msgType := MsgType.response }
      let e1 ← e0.setDevice (b3 : Int)
      let e2 ← e1.setFwrev (b4 : Int)
      let e3 ← e2.setModel ((b5 + (b6 <<< 8) + (b7 <<< 16) : Nat) : Int)
      Except.ok e3
    else
      Except.error PyError.msgSizeError
  else
    Except.error PyError.assertionError

/-- `NodeIdentification.getData`: payload `[controlCode, destNode]` plus,
for a RESPONSE, `[0x01, device, fwrev, model & 0xFF, (model & 0xFF00) >> 8,
(model & 0xFF0000) >> 16]`.  Reading an unset attribute raises. -/
def NodeIdentification.getData (e : NodeIdentification) :
    Except PyError (List Nat) := do
  let d ← attrGet e.destNode
  match e.msgType with
  | MsgType.request => Except.ok [e.controlCode, d]
  | MsgType.response => do
      let dev ← attrGet e.device
      let fw ← attrGet e.fwrev
      let m ← attrGet e.model
      Except.ok [e.controlCode, d, 0x01, dev, fw,
                 m &&& 0x0000FF, (m &&& 0x00FF00) >>> 8, (m &&& 0xFF0000) >>> 16]

/-- `NodeIdentification.getMessage`: frame with
`arbitration_id = sendNode + 1792` and the `getData` payload
(`None + 1792` would raise a `TypeError`). -/
def NodeIdentification.getMessage (e : NodeIdentification) :
    Except PyError CanMessage := do
  let s ← match e.sendNode with
          | some s => Except.ok s
          | none => Except.error PyError.typeError
  let d ← e.getData
  Except.ok { arbitration_id := s + 1792, data := d }

/-- `NodeIdentification.__str__`: formats sendNode, destNode, the control
code name, and unconditionally the device, fwrev and model attributes
(raising `AttributeError` when one of them was never set). -/
def NodeIdentification.strRepr (e : NodeIdentification) :
    Except PyError String := do
  let name ← pyIndex NodeSpecific.codes e.controlCode
  let dev ← attrGet e.device
  let fw ← attrGet e.fwrev
  let m ← attrGet e.model
  Except.ok ("[" ++ optStr e.sendNode ++ "]" ++ "->[" ++ optNatStr e.destNode ++ "] "
             ++ name ++ ": device=" ++ toString dev ++ ", fwrev=" ++ toString fw
             ++ ", model=" ++ toString m)

/-! ## Bit Rate Set (`class BitRateSet`, control code 1) -/

/-- State of a `BitRateSet` object. -/
structure BitRateSet where
  sendNode : Option Int
  destNode : Option Nat
  controlCode : Nat
  msgType : MsgType
  status : Option MsgStatus
  bitrate : Option Nat
deriving DecidableEq

/-- `BitRateSet.__init__` with no frame and no bitrate argument. -/
def BitRateSet.init : BitRateSet :=
  { sendNode := none, destNode := none, controlCode := 0x01,
    msgType := MsgType.response, status := some MsgStatus.success, bitrate := none }

/-- `BitRateSet.bitrates`: the kbps-to-protocol-code table
`{125: 1, 250: 2, 500: 3, 1000: 4}` (insertion order preserved). -/
def BitRateSet.bitrates : List (Int × Nat) := [(125, 1), (250, 2), (500, 3), (1000, 4)]

/-- `BitRateSet.setBitRate`: a value in 1..4 is stored directly; one of the
kbps values 125/250/500/1000 is translated through `bitrates`; anything
else raises `ValueError`.  A successful call forces `msgType = REQUEST`. -/
def BitRateSet.setBitRate (e : BitRateSet) (bitrate : Int) :
    Except PyError BitRateSet :=
  if bitrate ≥ 1 ∧ bitrate ≤ 4 then
    Except.ok { e with bitrate := some bitrate.toNat, msgType := MsgType.request }
  else
    match (BitRateSet.bitrates.find? (fun p => p.1 = bitrate)) with
    | some p => Except.ok { e with bitrate := some p.2, msgType := MsgType.request }
    | none => Except.error (PyError.valueError "Invalid Bit Rate Given")

/-- `BitRateSet.setMessage`: asserts `data[0] == 1`, reads
`destNode = data[1]`, then dispatches: length 2 is a SUCCESS response,
length 3 with third byte `0xFF` is a FAIL response, length 3 otherwise is a
request whose bitrate is assigned through the `setBitRate` property, and
any other length raises `MsgSizeError`. -/
def BitRateSet.setMessage (msg : CanMessage) : Except PyError BitRateSet := do
  let c0 ← pyIndex msg.data 0
  if c0 = 0x01 then
    let d1 ← pyIndex msg.data 1
    let base : BitRateSet :=
      { sendNode := some (msg.arbitration_id - 1792), destNode := some d1,
        controlCode := c0, msgType := MsgType.response,
        status := none, bitrate := none }
    if msg.dlc = 2 then
      Except.ok { base with msgType := MsgType.response, status := some MsgStatus.success }
    else if msg.dlc = 3 then do
      let b2 ← pyIndex msg.data 2
      if b2 = 0xFF then
        Except.ok { base with msgType := MsgType.response, status := some MsgStatus.fail }
      else
        BitRateSet.setBitRate { base with msgType := MsgType.request } (b2 : Int)
    else
      Except.error PyError.msgSizeError
  else
    Except.error PyError.assertionError

/-- `BitRateSet.getData`: payload `[controlCode, destNode]` plus `0xFF` for
a FAIL response or the bitrate code for a request; a SUCCESS response adds
nothing.  Reading an unset attribute raises. -/
def BitRateSet.getData (e : BitRateSet) : Except PyError (List Nat) := do
  let d ← attrGet e.destNode
  match e.msgType with
  | MsgType.response => do
      let st ← attrGet e.status
      match st with
      | MsgStatus.fail => Except.ok [e.controlCode, d, 0xFF]
      | MsgStatus.success => Except.ok [e.controlCode, d]
  | MsgType.request => do
      let b ← attrGet e.bitrate
      Except.ok [e.controlCode, d, b]

/-- `BitRateSet.getMessage`: frame with `arbitration_id = sendNode + 1792`
and the `getData` payload. -/
def BitRateSet.getMessage (e : BitRateSet) : Except PyError CanMessage := do
  let s ← match e.sendNode with
          | some s => Except.ok s
          | none => Except.error PyError.typeError
  let d ← e.getData
  Except.ok { arbitration_id := s + 1792, data := d }

/-- `BitRateSet.__str__`: for a request, searches `bitrates` for the kbps
key mapping to the stored code (an unmatched code leaves `b` unbound,
raising); for a response, reports success or failure. -/
def BitRateSet.strRepr (e : BitRateSet) : Except PyError String := do
  let name ← pyIndex NodeSpecific.codes e.controlCode
  let head := "[" ++ optStr e.sendNode ++ "]" ++ "->[" ++ optNatStr e.destNode ++ "] " ++ name
  match e.msgType with
  | MsgType.request => do
      let br ← attrGet e.bitrate
      let b ← match (BitRateSet.bitrates.find? (fun p => p.2 = br)) with
              | some p => Except.ok p.1
              | none => Except.error PyError.unboundLocalError
      Except.ok (head ++ ": request bitrate=" ++ toString b ++ "kbps")
  | MsgType.response => do
      let st ← attrGet e.status
      match st with
      | MsgStatus.success => Except.ok (head ++ ": Success Response")
      | MsgStatus.fail => Except.ok (head ++ ": Failure Response")

/-! ## Node ID Set (`class NodeIDSet`, control code 2) -/

/-- State of a `NodeIDSet` object. -/
structure NodeIDSet where
  sendNode : Option Int
  destNode : Option Nat
  controlCode : Nat
  msgType : MsgType
  newnode : Option Nat
deriving DecidableEq

/-- `NodeIDSet.__init__` with no frame and no newnode argument. -/
def NodeIDSet.init : NodeIDSet :=
  { sendNode := none, destNode := none, controlCode := 0x02,
    msgType := MsgType.response, newnode := none }

/-- `NodeIDSet.setNewNode`: accepts 1..255, raising `ValueError` otherwise;
a successful call forces `msgType = REQUEST`. -/
def NodeIDSet.setNewNode (e : NodeIDSet) (newnode : Int) :
    Except PyError NodeIDSet :=
  if newnode ≥ 1 ∧ newnode ≤ 255 then
    Except.ok { e with newnode := some newnode.toNat, msgType := MsgType.request }
  else
    Except.error (PyError.valueError "Invalid Node Number Given")

/-- `NodeIDSet.setMessage`: asserts `data[0] == 2`, reads
`destNode = data[1]`, requires length exactly 3 (`MsgSizeError` otherwise);
a third byte of `0x00` is a response, anything else is a request whose
newnode is assigned through the `setNewNode` property. -/
def NodeIDSet.setMessage (msg : CanMessage) : Except PyError NodeIDSet := do
  let c0 ← pyIndex msg.data 0
  if c0 = 0x02 then
    let d1 ← pyIndex msg.data 1
    let base : NodeIDSet :=
      { sendNode := some (msg.arbitration_id - 1792), destNode := some d1,
        controlCode := c0, msgType := MsgType.response, newnode := none }
    if msg.dlc = 3 then do
      let b2 ← pyIndex msg.data 2
      if b2 = 0x00 then
        Except.ok { base with msgType := MsgType.response }
      else
        NodeIDSet.setNewNode { base with msgType := MsgType.request } (b2 : Int)
    else
      Except.error PyError.msgSizeError
  else
    Except.error PyError.assertionError

/-- `NodeIDSet.getData`: payload `[controlCode, destNode, 0x00]` for a
response and `[controlCode, destNode, newnode]` for a request. -/
def NodeIDSet.getData (e : NodeIDSet) : Except PyError (List Nat) := do
  let d ← attrGet e.destNode
  match e.msgType with
  | MsgType.response => Except.ok [e.controlCode, d, 0x00]
  | MsgType.request => do
      let n ← attrGet e.newnode
      Except.ok [e.controlCode, d, n]

/-- `NodeIDSet.getMessage`: frame with `arbitration_id = sendNode + 1792`
and the `getData` payload. -/
def NodeIDSet.getMessage (e : NodeIDSet) : Except PyError CanMessage := do
  let s ← match e.sendNode with
          | some s => Except.ok s
          | none => Except.error PyError.typeError
  let d ← e.getData
  Except.ok { arbitration_id := s + 1792, data := d }

/-- `NodeIDSet.__str__`: reports the requested new node id for a request
and a success acknowledgement otherwise. -/
def NodeIDSet.strRepr (e : NodeIDSet) : Except PyError String := do
  let name ← pyIndex NodeSpecific.codes e.controlCode
  let head := "[" ++ optStr e.sendNode ++ "]" ++ "->[" ++ optNatStr e.destNode ++ "] " ++ name
  match e.msgType with
  | MsgType.request => do
      let n ← attrGet e.newnode
      Except.ok (head ++ ": request new node id=" ++ toString n)
  | MsgType.response => Except.ok (head ++ ": Success Response")

/-! ## Validity and observable equality of entities (for the round-trip) -/

/-- A fully populated, in-range `NodeIdentification` entity whose
role-specific fields match its role: a RESPONSE carries device, fwrev and
model; a REQUEST carries none of them. -/
def NodeIdentification.Valid (e : NodeIdentification) : Prop :=
  e.controlCode = 0 ∧
  (∃ s, e.sendNode = some s ∧ 0 ≤ s ∧ s ≤ 255) ∧
  (∃ d, e.destNode = some d ∧ d ≤ 255) ∧
  (e.msgType = MsgType.response →
    (∃ dv, e.device = some dv ∧ dv ≤ 255) ∧
    (∃ fw, e.fwrev = some fw ∧ fw ≤ 255) ∧
    (∃ m, e.model = some m ∧ m ≤ 0xFFFFFF))

/-- The observable fields of a `NodeIdentification` agree: sendNode,
destNode, msgType, and for a RESPONSE the device/fwrev/model triple. -/
def NodeIdentification.ObsEq (e e' : NodeIdentification) : Prop :=
  e'.sendNode = e.sendNode ∧ e'.destNode = e.destNode ∧ e'.msgType = e.msgType ∧
  (e.msgType = MsgType.response →
    e'.device = e.device ∧ e'.fwrev = e.fwrev ∧ e'.model = e.model)

/-- Encoding then decoding a `NodeIdentification` reproduces its
observable fields. -/
def NodeIdentification.RoundTrip (e : NodeIdentification) : Prop :=
  ∃ msg e', e.getMessage = Except.ok msg ∧
    NodeIdentification.setMessage msg = Except.ok e' ∧ e.ObsEq e'

/-- A fully populated, in-range `BitRateSet` entity: a RESPONSE carries a
status, a REQUEST carries a protocol bitrate code in 1..4. -/
def BitRateSet.Valid (e : BitRateSet) : Prop :=
  e.controlCode = 1 ∧
  (∃ s, e.sendNode = some s ∧ 0 ≤ s ∧ s ≤ 255) ∧
  (∃ d, e.destNode = some d ∧ d ≤ 255) ∧
  (e.msgType = MsgType.response → ∃ st, e.status = some st) ∧
  (e.msgType = MsgType.request → ∃ b, e.bitrate = some b ∧ 1 ≤ b ∧ b ≤ 4)

/-- The observable fields of a `BitRateSet` agree: sendNode, destNode,
msgType, the status for a RESPONSE and the bitrate for a REQUEST. -/
def BitRateSet.ObsEq (e e' : BitRateSet) : Prop :=
  e'.sendNode = e.sendNode ∧ e'.destNode = e.destNode ∧ e'.msgType = e.msgType ∧
  (e.msgType = MsgType.response → e'.status = e.status) ∧
  (e.msgType = MsgType.request → e'.bitrate = e.bitrate)

/-- Encoding then decoding a `BitRateSet` reproduces its observable
fields. -/
def BitRateSet.RoundTrip (e : BitRateSet) : Prop :=
  ∃ msg e', e.getMessage = Except.ok msg ∧
    BitRateSet.setMessage msg = Except.ok e' ∧ e.ObsEq e'

/-- A fully populated, in-range `NodeIDSet` entity: a REQUEST carries a
new node number in 1..255, a RESPONSE carries nothing further. -/
def NodeIDSet.Valid (e : NodeIDSet) : Prop :=
  e.controlCode = 2 ∧
  (∃ s, e.sendNode = some s ∧ 0 ≤ s ∧ s ≤ 255) ∧
  (∃ d, e.destNode = some d ∧ d ≤ 255) ∧
  (e.msgType = MsgType.request → ∃ n, e.newnode = some n ∧ 1 ≤ n ∧ n ≤ 255)

/-- The observable fields of a `NodeIDSet` agree: sendNode, destNode,
msgType and the newnode for a REQUEST. -/
def NodeIDSet.ObsEq (e e' : NodeIDSet) : Prop :=
  e'.sendNode = e.sendNode ∧ e'.destNode = e.destNode ∧ e'.msgType = e.msgType ∧
  (e.msgType = MsgType.request → e'.newnode = e.newnode)

/-- Encoding then decoding a `NodeIDSet` reproduces its observable
fields. -/
def NodeIDSet.RoundTrip (e : NodeIDSet) : Prop :=
  ∃ msg e', e.getMessage = Except.ok msg ∧
    NodeIDSet.setMessage msg = Except.ok e' ∧ e.ObsEq e'

/-- Shifting a bitwise and right distributes over both operands. -/
theorem and_shiftRight_distrib (m n k : Nat) :
    (m &&& n) >>> k = (m >>> k) &&& (n >>> k) := by
  apply Nat.eq_of_testBit_eq
  intro i
  simp [Nat.testBit_shiftRight, Nat.testBit_and]

/-- The three byte masks used by `NodeIdentification.getData` reassemble to
the original model number. -/
theorem model_mask_assemble (m : Nat) (h : m ≤ 0xFFFFFF) :
    (m &&& 0x0000FF) + ((m &&& 0x00FF00) >>> 8) <<< 8 + ((m &&& 0xFF0000) >>> 16) <<< 16 = m := by
  have e1 : ((0x00FF00 : Nat) >>> 8) = 0xFF := by decide
  have e2 : ((0xFF0000 : Nat) >>> 16) = 0xFF := by decide
  rw [and_shiftRight_distrib, and_shiftRight_distrib, e1, e2]
  have h1 := Nat.and_pow_two_sub_one_eq_mod m 8
  have h2 := Nat.and_pow_two_sub_one_eq_mod (m >>> 8) 8
  have h3 := Nat.and_pow_two_sub_one_eq_mod (m >>> 16) 8
  norm_num at h1 h2 h3
  rw [h1, h2, h3, Nat.shiftRight_eq_div_pow, Nat.shiftRight_eq_div_pow,
      Nat.shiftLeft_eq, Nat.shiftLeft_eq]
  norm_num
  omega

/-- Masked byte values are below 256. -/
theorem and_byte_lt (m : Nat) : m &&& 0xFF < 256 := by
  have h := Nat.and_lt_two_pow m (show (0xFF : Nat) < 2 ^ 8 by norm_num)
  norm_num at h
  exact h

/-- For disjoint byte positions the decoded sum equals the bitwise or. -/
theorem bytes_sum_eq_lor (b5 b6 b7 : Nat) (h5 : b5 < 256) (h6 : b6 < 256) :
    b5 + (b6 <<< 8) + (b7 <<< 16) = b5 ||| (b6 <<< 8) ||| (b7 <<< 16) := by
  have k1 : b6 <<< 8 = 2 ^ 8 * b6 := by rw [Nat.shiftLeft_eq]; ring
  have k2 : b7 <<< 16 = 2 ^ 16 * b7 := by rw [Nat.shiftLeft_eq]; ring
  have s1 : b5 + b6 <<< 8 = b5 ||| b6 <<< 8 := by
    rw [k1, Nat.add_comm, Nat.mul_add_lt_is_or (by norm_num; omega) b6]
    exact Nat.or_comm _ _
  have hlt : b5 ||| b6 <<< 8 < 2 ^ 16 := by
    apply Nat.or_lt_two_pow
    · norm_num; omega
    · rw [k1]; norm_num; omega
  calc b5 + b6 <<< 8 + b7 <<< 16
      = b7 <<< 16 + (b5 ||| b6 <<< 8) := by rw [s1]; ring
    _ = 2 ^ 16 * b7 + (b5 ||| b6 <<< 8) := by rw [k2]
    _ = 2 ^ 16 * b7 ||| (b5 ||| b6 <<< 8) := Nat.mul_add_lt_is_or hlt b7
    _ = b5 ||| b6 <<< 8 ||| b7 <<< 16 := by rw [← k2]; exact Nat.or_comm _ _

/-- Evaluating `setDevice` at an in-range natural number. -/
theorem setDevice_ofNat (e : NodeIdentification) (v : Nat) (h : v ≤ 255) :
    e.setDevice (v : Int) =
      Except.ok { e with device := some v, msgType := MsgType.response } := by
  unfold NodeIdentification.setDevice
  rw [if_neg (by omega)]
  simp

/-- Evaluating `setFwrev` at an in-range natural number. -/
theorem setFwrev_ofNat (e : NodeIdentification) (v : Nat) (h : v ≤ 255) :
    e.setFwrev (v : Int) =
      Except.ok { e with fwrev := some v, msgType := MsgType.response } := by
  unfold NodeIdentification.setFwrev
  rw [if_neg (by omega)]
  simp

/-- Evaluating `setModel` at an in-range natural number. -/
theorem setModel_ofNat (e : NodeIdentification) (v : Nat) (h : v ≤ 0xFFFFFF) :
    e.setModel (v : Int) =
      Except.ok { e with model := some v, msgType := MsgType.response } := by
  unfold NodeIdentification.setModel
  rw [if_neg (by norm_num; omega)]
  simp

/-- Evaluating `setBitRate` at a direct protocol code 1..4. -/
theorem setBitRate_ofNat (e : BitRateSet) (v : Nat) (h1 : 1 ≤ v) (h4 : v ≤ 4) :
    e.setBitRate (v : Int) =
      Except.ok { e with bitrate := some v, msgType := MsgType.request } := by
  unfold BitRateSet.setBitRate
  rw [if_pos (by omega)]
  simp

/-- Evaluating `setNewNode` at an in-range natural number. -/
theorem setNewNode_ofNat (e : NodeIDSet) (v : Nat) (h1 : 1 ≤ v) (h255 : v ≤ 255) :
    e.setNewNode (v : Int) =
      Except.ok { e with newnode := some v, msgType := MsgType.request } := by
  unfold NodeIDSet.setNewNode
  rw [if_pos (by omega)]
  simp

theorem exceptBind_ok {ε α β : Type} (a : α) (f : α → Except ε β) :
    (Except.ok (ε := ε) a >>= f) = f a := rfl

theorem ni_decode_request (A : Int) (d : Nat) :
    NodeIdentification.setMessage ⟨A, [0, d]⟩ =
      Except.ok { sendNode := some (A - 1792), destNode := some d, controlCode := 0,
                  msgType := MsgType.request, device := none, fwrev := none, model := none } := rfl

theorem ni_decode_response (A : Int) (d b2 b3 b4 b5 b6 b7 : Nat)
    (h3 : b3 ≤ 255) (h4 : b4 ≤ 255) (h5 : b5 < 256) (h6 : b6 < 256) (h7 : b7 < 256) :
    NodeIdentification.setMessage ⟨A, [0, d, b2, b3, b4, b5, b6, b7]⟩ =
      Except.ok { sendNode := some (A - 1792), destNode := some d, controlCode := 0,
                  msgType := MsgType.response, device := some b3, fwrev := some b4,
                  model := some (b5 + (b6 <<< 8) + (b7 <<< 16)) } := by
  have hm : b5 + (b6 <<< 8) + (b7 <<< 16) ≤ 0xFFFFFF := by
    rw [Nat.shiftLeft_eq, Nat.shiftLeft_eq]
    norm_num
    omega
  show ((({ sendNode := some (A - 1792), destNode := some d, controlCode := 0,
            msgType := MsgType.response, device := none, fwrev := none,
            model := none } : NodeIdentification).setDevice ((b3 : Nat) : Int)) >>= fun e1 =>
        e1.setFwrev ((b4 : Nat) : Int) >>= fun e2 =>
        e2.setModel ((b5 + (b6 <<< 8) + (b7 <<< 16) : Nat) : Int) >>= fun e3 =>
        Except.ok e3) = _
  rw [setDevice_ofNat _ _ h3, exceptBind_ok, setFwrev_ofNat _ _ h4, exceptBind_ok,
      setModel_ofNat _ _ hm, exceptBind_ok]

theorem ni_decode_len1 (A : Int) :
    NodeIdentification.setMessage ⟨A, [0]⟩ = Except.error PyError.indexError := rfl

theorem ni_decode_wrong_size (A : Int) (d : Nat) (rest : List Nat)
    (h0 : rest.length ≠ 0) (h6 : rest.length ≠ 6) :
    NodeIdentification.setMessage ⟨A, 0 :: d :: rest⟩ = Except.error PyError.msgSizeError := by
  have h2 : ¬(rest.length + 1 + 1 = 2) := by omega
  have h8 : ¬(rest.length + 1 + 1 = 8) := by omega
  simp [NodeIdentification.setMessage, pyIndex, CanMessage.dlc, h2, h8, exceptBind_ok]

theorem brs_decode_success (A : Int) (d : Nat) :
    BitRateSet.setMessage ⟨A, [1, d]⟩ =
      Except.ok { sendNode := some (A - 1792), destNode := some d, controlCode := 1,
                  msgType := MsgType.response, status := some MsgStatus.success,
                  bitrate := none } := rfl

theorem brs_decode_fail (A : Int) (d : Nat) :
    BitRateSet.setMessage ⟨A, [1, d, 0xFF]⟩ =
      Except.ok { sendNode := some (A - 1792), destNode := some d, controlCode := 1,
                  msgType := MsgType.response, status := some MsgStatus.fail,
                  bitrate := none } := rfl

theorem brs_decode_request (A : Int) (d b2 : Nat) (h1 : 1 ≤ b2) (h4 : b2 ≤ 4) :
    BitRateSet.setMessage ⟨A, [1, d, b2]⟩ =
      Except.ok { sendNode := some (A - 1792), destNode := some d, controlCode := 1,
                  msgType := MsgType.request, status := none, bitrate := some b2 } := by
  show (if b2 = 0xFF then
          Except.ok { sendNode := some (A - 1792), destNode := some d, controlCode := 1,
                      msgType := MsgType.response, status := some MsgStatus.fail,
                      bitrate := none }
        else
          BitRateSet.setBitRate
            { sendNode := some (A - 1792), destNode := some d, controlCode := 1,
              msgType := MsgType.request, status := none, bitrate := none }
            ((b2 : Nat) : Int)) = _
  rw [if_neg (by omega), setBitRate_ofNat _ _ h1 h4]

theorem brs_decode_kbps125 (A : Int) (d : Nat) :
    BitRateSet.setMessage ⟨A, [1, d, 125]⟩ =
      Except.ok { sendNode := some (A - 1792), destNode := some d, controlCode := 1,
                  msgType := MsgType.request, status := none, bitrate := some 1 } := rfl

theorem brs_decode_kbps250 (A : Int) (d : Nat) :
    BitRateSet.setMessage ⟨A, [1, d, 250]⟩ =
      Except.ok { sendNode := some (A - 1792), destNode := some d, controlCode := 1,
                  msgType := MsgType.request, status := none, bitrate := some 2 } := rfl

theorem brs_decode_badrate (A : Int) (d b2 : Nat) (hb : b2 ≤ 255) (h255 : b2 ≠ 255)
    (hno : ¬(1 ≤ b2 ∧ b2 ≤ 4)) (h125 : b2 ≠ 125) (h250 : b2 ≠ 250) :
    BitRateSet.setMessage ⟨A, [1, d, b2]⟩ =
      Except.error (PyError.valueError "Invalid Bit Rate Given") := by
  show (if b2 = 0xFF then
          Except.ok { sendNode := some (A - 1792), destNode := some d, controlCode := 1,
                      msgType := MsgType.response, status := some MsgStatus.fail,
                      bitrate := none }
        else
          BitRateSet.setBitRate
            { sendNode := some (A - 1792), destNode := some d, controlCode := 1,
              msgType := MsgType.request, status := none, bitrate := none }
            ((b2 : Nat) : Int)) = _
  rw [if_neg h255]
  unfold BitRateSet.setBitRate
  rw [if_neg (by omega)]
  have c1 : ¬((125 : Int) = ((b2 : Nat) : Int)) := by omega
  have c2 : ¬((250 : Int) = ((b2 : Nat) : Int)) := by omega
  have c3 : ¬((500 : Int) = ((b2 : Nat) : Int)) := by omega
  have c4 : ¬((1000 : Int) = ((b2 : Nat) : Int)) := by omega
  have hf : BitRateSet.bitrates.find? (fun p => p.1 = ((b2 : Nat) : Int)) = none := by
    simp [BitRateSet.bitrates, List.find?, c1, c2, c3, c4]
  rw [hf]

theorem brs_decode_len1 (A : Int) :
    BitRateSet.setMessage ⟨A, [1]⟩ = Except.error PyError.indexError := rfl

theorem brs_decode_wrong_size (A : Int) (d : Nat) (rest : List Nat)
    (h0 : rest.length ≠ 0) (h1 : rest.length ≠ 1) :
    BitRateSet.setMessage ⟨A, 1 :: d :: rest⟩ = Except.error PyError.msgSizeError := by
  have h2 : ¬(rest.length + 1 + 1 = 2) := by omega
  have h3 : ¬(rest.length + 1 + 1 = 3) := by omega
  simp [BitRateSet.setMessage, pyIndex, CanMessage.dlc, h2, h3, exceptBind_ok]

theorem nis_decode_ack (A : Int) (d : Nat) :
    NodeIDSet.setMessage ⟨A, [2, d, 0]⟩ =
      Except.ok { sendNode := some (A - 1792), destNode := some d, controlCode := 2,
                  msgType := MsgType.response, newnode := none } := rfl

theorem nis_decode_request (A : Int) (d b2 : Nat) (h1 : 1 ≤ b2) (h255 : b2 ≤ 255) :
    NodeIDSet.setMessage ⟨A, [2, d, b2]⟩ =
      Except.ok { sendNode := some (A - 1792), destNode := some d, controlCode := 2,
                  msgType := MsgType.request, newnode := some b2 } := by
  show (if b2 = 0x00 then
          Except.ok { sendNode := some (A - 1792), destNode := some d, controlCode := 2,
                      msgType := MsgType.response, newnode := none }
        else
          NodeIDSet.setNewNode
            { sendNode := some (A - 1792), destNode := some d, controlCode := 2,
              msgType := MsgType.request, newnode := none }
            ((b2 : Nat) : Int)) = _
  rw [if_neg (by omega), setNewNode_ofNat _ _ h1 h255]

theorem nis_decode_len1 (A : Int) :
    NodeIDSet.setMessage ⟨A, [2]⟩ = Except.error PyError.indexError := rfl

theorem nis_decode_wrong_size (A : Int) (d : Nat) (rest : List Nat)
    (h1 : rest.length ≠ 1) :
    NodeIDSet.setMessage ⟨A, 2 :: d :: rest⟩ = Except.error PyError.msgSizeError := by
  have h3 : ¬(rest.length + 1 + 1 = 3) := by omega
  simp [NodeIDSet.setMessage, pyIndex, CanMessage.dlc, h3, exceptBind_ok]

theorem exceptBind_error {ε α β : Type} (e : ε) (f : α → Except ε β) :
    (Except.error (α := α) e >>= f) = Except.error e := rfl

/-- C1: for every valid fully populated entity of each of the three variants
(sendNode and destNode in 0..255, role-specific fields consistent with the
msgType), decoding the frame produced by encoding it yields an entity whose
sendNode, destNode, msgType and role-specific fields (device, fwrev, model;
status; bitrate; newnode) equal those of the original. -/
theorem C1_round_trip (a : NodeIdentification) (b : BitRateSet) (c : NodeIDSet)
    (ha : a.Valid) (hb : b.Valid) (hc : c.Valid) :
    a.RoundTrip ∧ b.RoundTrip ∧ c.RoundTrip := by
  refine ⟨?_, ?_, ?_⟩
  · obtain ⟨hcc, ⟨s, hs, hs0, hs255⟩, ⟨d, hd, hd255⟩, hresp⟩ := ha
    cases hmt : a.msgType with
    | request =>
        have hgd : a.getData = Except.ok [0, d] := by
          simp [NodeIdentification.getData, attrGet, hd, hmt, hcc, exceptBind_ok]
        have hgm : a.getMessage = Except.ok ⟨s + 1792, [0, d]⟩ := by
          simp [NodeIdentification.getMessage, hs, hgd, exceptBind_ok]
        refine ⟨⟨s + 1792, [0, d]⟩, _, hgm, ni_decode_request (s + 1792) d, ?_⟩
        have harith : s + 1792 - 1792 = s := by ring
        refine ⟨by rw [harith, hs], by rw [hd], hmt.symm, ?_⟩
        intro hcon
        rw [hmt] at hcon
        cases hcon
    | response =>
        obtain ⟨⟨dv, hdev, hdev255⟩, ⟨fw, hfw, hfw255⟩, ⟨m, hm, hm255⟩⟩ := hresp hmt
        have hgd : a.getData =
            Except.ok [0, d, 1, dv, fw, m &&& 0x0000FF, (m &&& 0x00FF00) >>> 8,
                       (m &&& 0xFF0000) >>> 16] := by
          simp [NodeIdentification.getData, attrGet, hd, hdev, hfw, hm, hmt, hcc, exceptBind_ok]
        have hgm : a.getMessage =
            Except.ok ⟨s + 1792, [0, d, 1, dv, fw, m &&& 0x0000FF, (m &&& 0x00FF00) >>> 8,
                                  (m &&& 0xFF0000) >>> 16]⟩ := by
          simp [NodeIdentification.getMessage, hs, hgd, exceptBind_ok]
        have hx5 : m &&& 0x0000FF < 256 := and_byte_lt m
        have hx6 : (m &&& 0x00FF00) >>> 8 < 256 := by
          rw [and_shiftRight_distrib, show ((0x00FF00 : Nat) >>> 8) = 0xFF from by decide]
          exact and_byte_lt _
        have hx7 : (m &&& 0xFF0000) >>> 16 < 256 := by
          rw [and_shiftRight_distrib, show ((0xFF0000 : Nat) >>> 16) = 0xFF from by decide]
          exact and_byte_lt _
        have hdec := ni_decode_response (s + 1792) d 1 dv fw
          (m &&& 0x0000FF) ((m &&& 0x00FF00) >>> 8) ((m &&& 0xFF0000) >>> 16)
          hdev255 hfw255 hx5 hx6 hx7
        rw [model_mask_assemble m hm255] at hdec
        refine ⟨_, _, hgm, hdec, ?_⟩
        have harith : s + 1792 - 1792 = s := by ring
        refine ⟨by rw [harith, hs], by rw [hd], hmt.symm, ?_⟩
        intro _
        exact ⟨by rw [hdev], by rw [hfw], by rw [hm]⟩
  · obtain ⟨hcc, ⟨s, hs, hs0, hs255⟩, ⟨d, hd, hd255⟩, hresp, hreq⟩ := hb
    cases hmt : b.msgType with
    | response =>
        obtain ⟨st, hst⟩ := hresp hmt
        cases st with
        | success =>
            have hgd : b.getData = Except.ok [1, d] := by
              simp [BitRateSet.getData, attrGet, hd, hst, hmt, hcc, exceptBind_ok]
            have hgm : b.getMessage = Except.ok ⟨s + 1792, [1, d]⟩ := by
              simp [BitRateSet.getMessage, hs, hgd, exceptBind_ok]
            refine ⟨_, _, hgm, brs_decode_success (s + 1792) d, ?_⟩
            have harith : s + 1792 - 1792 = s := by ring
            refine ⟨by rw [harith, hs], by rw [hd], hmt.symm, fun _ => by rw [hst], ?_⟩
            intro hcon
            rw [hmt] at hcon
            cases hcon
        | fail =>
            have hgd : b.getData = Except.ok [1, d, 0xFF] := by
              simp [BitRateSet.getData, attrGet, hd, hst, hmt, hcc, exceptBind_ok]
            have hgm : b.getMessage = Except.ok ⟨s + 1792, [1, d, 0xFF]⟩ := by
              simp [BitRateSet.getMessage, hs, hgd, exceptBind_ok]
            refine ⟨_, _, hgm, brs_decode_fail (s + 1792) d, ?_⟩
            have harith : s + 1792 - 1792 = s := by ring
            refine ⟨by rw [harith, hs], by rw [hd], hmt.symm, fun _ => by rw [hst], ?_⟩
            intro hcon
            rw [hmt] at hcon
            cases hcon
    | request =>
        obtain ⟨k, hk, hk1, hk4⟩ := hreq hmt
        have hgd : b.getData = Except.ok [1, d, k] := by
          simp [BitRateSet.getData, attrGet, hd, hk, hmt, hcc, exceptBind_ok]
        have hgm : b.getMessage = Except.ok ⟨s + 1792, [1, d, k]⟩ := by
          simp [BitRateSet.getMessage, hs, hgd, exceptBind_ok]
        refine ⟨_, _, hgm, brs_decode_request (s + 1792) d k hk1 hk4, ?_⟩
        have harith : s + 1792 - 1792 = s := by ring
        refine ⟨by rw [harith, hs], by rw [hd], hmt.symm, ?_, fun _ => by rw [hk]⟩
        intro hcon
        rw [hmt] at hcon
        cases hcon
  · obtain ⟨hcc, ⟨s, hs, hs0, hs255⟩, ⟨d, hd, hd255⟩, hreq⟩ := hc
    cases hmt : c.msgType with
    | response =>
        have hgd : c.getData = Except.ok [2, d, 0] := by
          simp [NodeIDSet.getData, attrGet, hd, hmt, hcc, exceptBind_ok]
        have hgm : c.getMessage = Except.ok ⟨s + 1792, [2, d, 0]⟩ := by
          simp [NodeIDSet.getMessage, hs, hgd, exceptBind_ok]
        refine ⟨_, _, hgm, nis_decode_ack (s + 1792) d, ?_⟩
        have harith : s + 1792 - 1792 = s := by ring
        refine ⟨by rw [harith, hs], by rw [hd], hmt.symm, ?_⟩
        intro hcon
        rw [hmt] at hcon
        cases hcon
    | request =>
        obtain ⟨n, hn, hn1, hn255⟩ := hreq hmt
        have hgd : c.getData = Except.ok [2, d, n] := by
          simp [NodeIDSet.getData, attrGet, hd, hn, hmt, hcc, exceptBind_ok]
        have hgm : c.getMessage = Except.ok ⟨s + 1792, [2, d, n]⟩ := by
          simp [NodeIDSet.getMessage, hs, hgd, exceptBind_ok]
        refine ⟨_, _, hgm, nis_decode_request (s + 1792) d n hn1 hn255, ?_⟩
        have harith : s + 1792 - 1792 = s := by ring
        refine ⟨by rw [harith, hs], by rw [hd], hmt.symm, fun _ => by rw [hn]⟩

/-- Witness for C1 at one concrete entity per variant. -/
theorem C1_round_trip_witness :
    NodeIdentification.RoundTrip
      { sendNode := some 1, destNode := some 5, controlCode := 0,
        msgType := MsgType.response, device := some 10, fwrev := some 2,
        model := some 0x123456 } ∧
    BitRateSet.RoundTrip
      { sendNode := some 1, destNode := some 5, controlCode := 1,
        msgType := MsgType.request, status := some MsgStatus.success, bitrate := some 3 } ∧
    NodeIDSet.RoundTrip
      { sendNode := some 1, destNode := some 5, controlCode := 2,
        msgType := MsgType.request, newnode := some 9 } :=
  C1_round_trip _ _ _
    ⟨rfl, ⟨1, rfl, by omega, by omega⟩, ⟨5, rfl, by omega⟩,
      fun _ => ⟨⟨10, rfl, by omega⟩, ⟨2, rfl, by omega⟩, ⟨0x123456, rfl, by omega⟩⟩⟩
    ⟨rfl, ⟨1, rfl, by omega, by omega⟩, ⟨5, rfl, by omega⟩,
      fun _ => ⟨MsgStatus.success, rfl⟩, fun _ => ⟨3, rfl, by omega, by omega⟩⟩
    ⟨rfl, ⟨1, rfl, by omega, by omega⟩, ⟨5, rfl, by omega⟩,
      fun _ => ⟨9, rfl, by omega, by omega⟩⟩

/-- C2 (amended): for a frame whose first payload byte is 0, a payload of
length 2 decodes to a REQUEST with no further fields; a payload of length 8
decodes to a RESPONSE with device = byte 3, fwrev = byte 4 and
model = byte5 \||| (byte6 <<< 8) \||| (byte7 <<< 16); any other payload
length of at least 2 fails with `MsgSizeError`; a payload of length 1 fails
with an `IndexError` (reading `msg.data[1]`), not with `MsgSizeError`. -/
theorem C2_node_identification_lengths (A : Int) (d b2 b3 b4 b5 b6 b7 : Nat)
    (rest : List Nat) (h3 : b3 ≤ 255) (h4 : b4 ≤ 255) (h5 : b5 < 256) (h6 : b6 < 256)
    (h7 : b7 < 256) (hr0 : rest.length ≠ 0) (hr6 : rest.length ≠ 6) :
    (NodeIdentification.setMessage ⟨A, [0, d]⟩ =
       Except.ok { sendNode := some (A - 1792), destNode := some d, controlCode := 0,
                   msgType := MsgType.request, device := none, fwrev := none,
                   model := none }) ∧
    (NodeIdentification.setMessage ⟨A, [0, d, b2, b3, b4, b5, b6, b7]⟩ =
       Except.ok { sendNode := some (A - 1792), destNode := some d, controlCode := 0,
                   msgType := MsgType.response, device := some b3, fwrev := some b4,
                   model := some (b5 ||| (b6 <<< 8) ||| (b7 <<< 16)) }) ∧
    (NodeIdentification.setMessage ⟨A, 0 :: d :: rest⟩ = Except.error PyError.msgSizeError) ∧
    (NodeIdentification.setMessage ⟨A, [0]⟩ = Except.error PyError.indexError) := by
  refine ⟨ni_decode_request A d, ?_, ni_decode_wrong_size A d rest hr0 hr6, ni_decode_len1 A⟩
  rw [← bytes_sum_eq_lor b5 b6 b7 h5 h6]
  exact ni_decode_response A d b2 b3 b4 b5 b6 b7 h3 h4 h5 h6 h7

/-- Witness for C2 at concrete frames of lengths 2, 8, 3 and 1. -/
theorem C2_witness :
    (NodeIdentification.setMessage ⟨1793, [0, 5]⟩ =
       Except.ok { sendNode := some 1, destNode := some 5, controlCode := 0,
                   msgType := MsgType.request, device := none, fwrev := none,
                   model := none }) ∧
    (NodeIdentification.setMessage ⟨1793, [0, 5, 1, 10, 2, 0x34, 0x12, 0x56]⟩ =
       Except.ok { sendNode := some 1, destNode := some 5, controlCode := 0,
                   msgType := MsgType.response, device := some 10, fwrev := some 2,
                   model := some (0x34 ||| (0x12 <<< 8) ||| (0x56 <<< 16)) }) ∧
    (NodeIdentification.setMessage ⟨1793, [0, 5, 9]⟩ = Except.error PyError.msgSizeError) ∧
    (NodeIdentification.setMessage ⟨1793, [0]⟩ = Except.error PyError.indexError) := by
  have h := C2_node_identification_lengths 1793 5 1 10 2 0x34 0x12 0x56 [9]
    (by omega) (by omega) (by omega) (by omega) (by omega) (by simp) (by simp)
  exact h

/-- Counterexample to C2 as stated: a length-1 frame with first byte 0
fails with `IndexError`, not with the claimed `MsgSizeError`. -/
theorem C2_counterexample :
    NodeIdentification.setMessage ⟨1793, [0]⟩ = Except.error PyError.indexError ∧
    NodeIdentification.setMessage ⟨1793, [0]⟩ ≠ Except.error PyError.msgSizeError := by
  decide

/-- C3 (amended): for a frame whose first payload byte is 1, length 2
decodes to RESPONSE/SUCCESS; length 3 with third byte 0xFF decodes to
RESPONSE/FAIL; length 3 with third byte in 1..4 decodes to REQUEST with
bitrate equal to that byte; third byte 125 or 250 decodes to REQUEST with
bitrate 1 or 2 (kbps translation via the `bitrates` table); any other
length-3 third byte fails with `ValueError` because the byte is routed
through the `setBitRate` property; any other payload length of at least 2
fails with `MsgSizeError`; a length-1 payload fails with `IndexError`. -/
theorem C3_bit_rate_set_decode (A : Int) (d b2 : Nat) (rest : List Nat) :
    (BitRateSet.setMessage ⟨A, [1, d]⟩ =
       Except.ok { sendNode := some (A - 1792), destNode := some d, controlCode := 1,
                   msgType := MsgType.response, status := some MsgStatus.success,
                   bitrate := none }) ∧
    (BitRateSet.setMessage ⟨A, [1, d, 0xFF]⟩ =
       Except.ok { sendNode := some (A - 1792), destNode := some d, controlCode := 1,
                   msgType := MsgType.response, status := some MsgStatus.fail,
                   bitrate := none }) ∧
    (1 ≤ b2 → b2 ≤ 4 →
       BitRateSet.setMessage ⟨A, [1, d, b2]⟩ =
         Except.ok { sendNode := some (A - 1792), destNode := some d, controlCode := 1,
                     msgType := MsgType.request, status := none, bitrate := some b2 }) ∧
    (BitRateSet.setMessage ⟨A, [1, d, 125]⟩ =
       Except.ok { sendNode := some (A - 1792), destNode := some d, controlCode := 1,
                   msgType := MsgType.request, status := none, bitrate := some 1 }) ∧
    (BitRateSet.setMessage ⟨A, [1, d, 250]⟩ =
       Except.ok { sendNode := some (A - 1792), destNode := some d, controlCode := 1,
                   msgType := MsgType.request, status := none, bitrate := some 2 }) ∧
    (b2 ≤ 255 → b2 ≠ 255 → ¬(1 ≤ b2 ∧ b2 ≤ 4) → b2 ≠ 125 → b2 ≠ 250 →
       BitRateSet.setMessage ⟨A, [1, d, b2]⟩ =
         Except.error (PyError.valueError "Invalid Bit Rate Given")) ∧
    (rest.length ≠ 0 → rest.length ≠ 1 →
       BitRateSet.setMessage ⟨A, 1 :: d :: rest⟩ = Except.error PyError.msgSizeError) ∧
    (BitRateSet.setMessage ⟨A, [1]⟩ = Except.error PyError.indexError) :=
  ⟨brs_decode_success A d, brs_decode_fail A d,
   fun h1 h4 => brs_decode_request A d b2 h1 h4,
   brs_decode_kbps125 A d, brs_decode_kbps250 A d,
   fun hb h255 hno h125 h250 => brs_decode_badrate A d b2 hb h255 hno h125 h250,
   fun h0 h1 => brs_decode_wrong_size A d rest h0 h1,
   brs_decode_len1 A⟩

/-- Witness for C3 at concrete Bit Rate Set frames. -/
theorem C3_witness :
    (BitRateSet.setMessage ⟨1793, [1, 5]⟩ =
       Except.ok { sendNode := some 1, destNode := some 5, controlCode := 1,
                   msgType := MsgType.response, status := some MsgStatus.success,
                   bitrate := none }) ∧
    (BitRateSet.setMessage ⟨1793, [1, 5, 2]⟩ =
       Except.ok { sendNode := some 1, destNode := some 5, controlCode := 1,
                   msgType := MsgType.request, status := none, bitrate := some 2 }) ∧
    (BitRateSet.setMessage ⟨1793, [1, 5, 30]⟩ =
       Except.error (PyError.valueError "Invalid Bit Rate Given")) ∧
    (BitRateSet.setMessage ⟨1793, [1, 5, 9, 9]⟩ = Except.error PyError.msgSizeError) := by
  have h := C3_bit_rate_set_decode 1793 5 2 [9, 9]
  have h30 := C3_bit_rate_set_decode 1793 5 30 [9, 9]
  exact ⟨h.1, h.2.2.1 (by omega) (by omega),
         h30.2.2.2.2.2.1 (by omega) (by omega) (by omega) (by omega) (by omega),
         h.2.2.2.2.2.2.1 (by simp) (by simp)⟩

/-- Counterexample to C3 as stated: a length-3 frame with third byte 5
(not 0xFF) does not decode to a REQUEST with bitrate 5; the `setBitRate`
property rejects 5 and the decode fails with `ValueError`. -/
theorem C3_counterexample :
    BitRateSet.setMessage ⟨1793, [1, 2, 5]⟩ =
      Except.error (PyError.valueError "Invalid Bit Rate Given") := by
  decide

/-- C4 (amended): for a frame whose first payload byte is 2, decode
requires payload length exactly 3: a third byte of 0x00 yields a RESPONSE
with no further fields, any other third byte yields a REQUEST with newnode
equal to that byte; any other payload length of at least 2 fails with
`MsgSizeError`, while a length-1 payload fails with `IndexError`; encoding
a RESPONSE produces `[controlCode, destNode, 0x00]` and encoding a REQUEST
produces `[controlCode, destNode, newnode]`. -/
theorem C4_node_id_set (A : Int) (d b2 n : Nat) (rest : List Nat) (e : NodeIDSet) :
    (NodeIDSet.setMessage ⟨A, [2, d, 0]⟩ =
       Except.ok { sendNode := some (A - 1792), destNode := some d, controlCode := 2,
                   msgType := MsgType.response, newnode := none }) ∧
    (1 ≤ b2 → b2 ≤ 255 →
       NodeIDSet.setMessage ⟨A, [2, d, b2]⟩ =
         Except.ok { sendNode := some (A - 1792), destNode := some d, controlCode := 2,
                     msgType := MsgType.request, newnode := some b2 }) ∧
    (rest.length ≠ 1 →
       NodeIDSet.setMessage ⟨A, 2 :: d :: rest⟩ = Except.error PyError.msgSizeError) ∧
    (NodeIDSet.setMessage ⟨A, [2]⟩ = Except.error PyError.indexError) ∧
    (e.msgType = MsgType.response → e.destNode = some d →
       e.getData = Except.ok [e.controlCode, d, 0]) ∧
    (e.msgType = MsgType.request → e.destNode = some d → e.newnode = some n →
       e.getData = Except.ok [e.controlCode, d, n]) := by
  refine ⟨nis_decode_ack A d, fun h1 h255 => nis_decode_request A d b2 h1 h255,
          fun h1 => nis_decode_wrong_size A d rest h1, nis_decode_len1 A, ?_, ?_⟩
  · intro hmt hd
    simp [NodeIDSet.getData, attrGet, hd, hmt, exceptBind_ok]
  · intro hmt hd hn
    simp [NodeIDSet.getData, attrGet, hd, hmt, hn, exceptBind_ok]

/-- Witness for C4 at concrete Node ID Set frames and entities. -/
theorem C4_witness :
    (NodeIDSet.setMessage ⟨1793, [2, 5, 0]⟩ =
       Except.ok { sendNode := some 1, destNode := some 5, controlCode := 2,
                   msgType := MsgType.response, newnode := none }) ∧
    (NodeIDSet.setMessage ⟨1793, [2, 5, 9]⟩ =
       Except.ok { sendNode := some 1, destNode := some 5, controlCode := 2,
                   msgType := MsgType.request, newnode := some 9 }) ∧
    (NodeIDSet.setMessage ⟨1793, [2, 5, 9, 9]⟩ = Except.error PyError.msgSizeError) ∧
    (({ sendNode := some 1, destNode := some 5, controlCode := 2,
        msgType := MsgType.response, newnode := none } : NodeIDSet).getData =
       Except.ok [2, 5, 0]) ∧
    (({ sendNode := some 1, destNode := some 5, controlCode := 2,
        msgType := MsgType.request, newnode := some 9 } : NodeIDSet).getData =
       Except.ok [2, 5, 9]) := by
  have h := C4_node_id_set 1793 5 9 9 [9, 9]
    ({ sendNode := some 1, destNode := some 5, controlCode := 2,
       msgType := MsgType.response, newnode := none } : NodeIDSet)
  have h2 := C4_node_id_set 1793 5 9 9 [9, 9]
    ({ sendNode := some 1, destNode := some 5, controlCode := 2,
       msgType := MsgType.request, newnode := some 9 } : NodeIDSet)
  exact ⟨h.1, h.2.1 (by omega) (by omega), h.2.2.1 (by simp),
         h.2.2.2.2.1 rfl rfl, h2.2.2.2.2.2 rfl rfl rfl⟩

/-- Counterexample to C4 as stated: a length-1 frame with first byte 2
fails with `IndexError`, not with the claimed `MsgSizeError`. -/
theorem C4_counterexample :
    NodeIDSet.setMessage ⟨1793, [2]⟩ = Except.error PyError.indexError ∧
    NodeIDSet.setMessage ⟨1793, [2]⟩ ≠ Except.error PyError.msgSizeError := by
  decide

/-- C5: each field setter is an exact-domain check: device and fwrev
accept exactly 0..255, model exactly 0..0xFFFFFF, newnode exactly 1..255,
and bitrate exactly 1..4 (stored directly) plus the kbps values
125/250/500/1000 (translated to 1..4); every in-domain value succeeds and
every out-of-domain value yields a `ValueError` and no updated entity, so
the caller's prior entity is left completely unchanged. -/
theorem C5_setter_domains (a : NodeIdentification) (b : BitRateSet) (c : NodeIDSet) (v : Int) :
    (a.setDevice v =
       if 0 ≤ v ∧ v ≤ 255 then
         Except.ok { a with device := some v.toNat, msgType := MsgType.response }
       else Except.error (PyError.valueError "Device ID must be between 0 and 255")) ∧
    (a.setFwrev v =
       if 0 ≤ v ∧ v ≤ 255 then
         Except.ok { a with fwrev := some v.toNat, msgType := MsgType.response }
       else Except.error (PyError.valueError "Firmware Revision must be between 0 and 255")) ∧
    (a.setModel v =
       if 0 ≤ v ∧ v ≤ 0xFFFFFF then
         Except.ok { a with model := some v.toNat, msgType := MsgType.response }
       else Except.error (PyError.valueError "Model must be between 0 and 0xFFFFFF")) ∧
    (c.setNewNode v =
       if 1 ≤ v ∧ v ≤ 255 then
         Except.ok { c with newnode := some v.toNat, msgType := MsgType.request }
       else Except.error (PyError.valueError "Invalid Node Number Given")) ∧
    (b.setBitRate v =
       if 1 ≤ v ∧ v ≤ 4 then
         Except.ok { b with bitrate := some v.toNat, msgType := MsgType.request }
       else if v = 125 then
         Except.ok { b with bitrate := some 1, msgType := MsgType.request }
       else if v = 250 then
         Except.ok { b with bitrate := some 2, msgType := MsgType.request }
       else if v = 500 then
         Except.ok { b with bitrate := some 3, msgType := MsgType.request }
       else if v = 1000 then
         Except.ok { b with bitrate := some 4, msgType := MsgType.request }
       else Except.error (PyError.valueError "Invalid Bit Rate Given")) := by
  refine ⟨?_, ?_, ?_, ?_, ?_⟩
  · by_cases h : 0 ≤ v ∧ v ≤ 255
    · simp only [NodeIdentification.setDevice]
      rw [if_neg (show ¬(v > 255 ∨ v < 0) by omega), if_pos h]
    · simp only [NodeIdentification.setDevice]
      rw [if_pos (show v > 255 ∨ v < 0 by omega), if_neg h]
  · by_cases h : 0 ≤ v ∧ v ≤ 255
    · simp only [NodeIdentification.setFwrev]
      rw [if_neg (show ¬(v > 255 ∨ v < 0) by omega), if_pos h]
    · simp only [NodeIdentification.setFwrev]
      rw [if_pos (show v > 255 ∨ v < 0 by omega), if_neg h]
  · by_cases h : 0 ≤ v ∧ v ≤ 0xFFFFFF
    · simp only [NodeIdentification.setModel]
      rw [if_neg (show ¬(v < 0 ∨ v > 0xFFFFFF) by omega), if_pos h]
    · simp only [NodeIdentification.setModel]
      rw [if_pos (show v < 0 ∨ v > 0xFFFFFF by omega), if_neg h]
  · rfl
  · by_cases h14 : 1 ≤ v ∧ v ≤ 4
    · simp only [BitRateSet.setBitRate]
      rw [if_pos h14, if_pos h14]
    · by_cases h125 : v = 125
      · subst h125; rfl
      · by_cases h250 : v = 250
        · subst h250; rfl
        · by_cases h500 : v = 500
          · subst h500; rfl
          · by_cases h1000 : v = 1000
            · subst h1000; rfl
            · have c1 : ¬((125 : Int) = v) := by omega
              have c2 : ¬((250 : Int) = v) := by omega
              have c3 : ¬((500 : Int) = v) := by omega
              have c4 : ¬((1000 : Int) = v) := by omega
              simp only [BitRateSet.setBitRate]
              rw [if_neg h14]
              have hf : BitRateSet.bitrates.find? (fun p => p.1 = v) = none := by
                simp [BitRateSet.bitrates, List.find?, c1, c2, c3, c4]
              rw [hf, if_neg h125, if_neg h250, if_neg h500, if_neg h1000, if_neg h14]

/-- C6: every successful call of a response-only field setter (device,
fwrev, model) leaves the entity with msgType RESPONSE, and every
successful call of a request-only field setter (bitrate, newnode) leaves
the entity with msgType REQUEST. -/
theorem C6_setters_force_role (a : NodeIdentification) (aD aF aM : NodeIdentification)
    (b bB : BitRateSet) (c cN : NodeIDSet) (v : Int) :
    (a.setDevice v = Except.ok aD → aD.msgType = MsgType.response) ∧
    (a.setFwrev v = Except.ok aF → aF.msgType = MsgType.response) ∧
    (a.setModel v = Except.ok aM → aM.msgType = MsgType.response) ∧
    (b.setBitRate v = Except.ok bB → bB.msgType = MsgType.request) ∧
    (c.setNewNode v = Except.ok cN → cN.msgType = MsgType.request) := by
  refine ⟨?_, ?_, ?_, ?_, ?_⟩ <;> intro h
  · unfold NodeIdentification.setDevice at h
    split at h
    · cases h
    · cases h; rfl
  · unfold NodeIdentification.setFwrev at h
    split at h
    · cases h
    · cases h; rfl
  · unfold NodeIdentification.setModel at h
    split at h
    · cases h
    · cases h; rfl
  · unfold BitRateSet.setBitRate at h
    split at h
    · cases h; rfl
    · split at h
      · cases h; rfl
      · cases h
  · unfold NodeIDSet.setNewNode at h
    split at h
    · cases h; rfl
    · cases h

/-- Witness for C6 applying each setter once at value 1. -/
theorem C6_witness :
    (NodeIdentification.mk none none 0 MsgType.response (some 1) none none).msgType = MsgType.response ∧
    (NodeIdentification.mk none none 0 MsgType.response none (some 1) none).msgType = MsgType.response ∧
    (NodeIdentification.mk none none 0 MsgType.response none none (some 1)).msgType = MsgType.response ∧
    (BitRateSet.mk none none 1 MsgType.request (some MsgStatus.success) (some 1)).msgType = MsgType.request ∧
    (NodeIDSet.mk none none 2 MsgType.request (some 1)).msgType = MsgType.request := by
  have h := C6_setters_force_role NodeIdentification.init
    (NodeIdentification.mk none none 0 MsgType.response (some 1) none none)
    (NodeIdentification.mk none none 0 MsgType.response none (some 1) none)
    (NodeIdentification.mk none none 0 MsgType.response none none (some 1))
    BitRateSet.init
    (BitRateSet.mk none none 1 MsgType.request (some MsgStatus.success) (some 1))
    NodeIDSet.init
    (NodeIDSet.mk none none 2 MsgType.request (some 1))
    1
  exact ⟨h.1 (by decide), h.2.1 (by decide), h.2.2.1 (by decide),
         h.2.2.2.1 (by decide), h.2.2.2.2 (by decide)⟩

/-- Counterexample to C7 as stated: decoding a frame with address 0
(sendNode would be -1792, far outside 0..255) succeeds; the generic
envelope decode raises no `AddressRangeError` at all. -/
theorem C7_counterexample :
    NodeSpecific.setMessage ⟨0, [3]⟩ =
      Except.ok { sendNode := some (-1792), controlCode := 3, data := [] } := by
  decide

/-- C7 (amended): the generic envelope decode performs no address-range
check: for every frame with a nonempty payload it succeeds and stores
sendNode = address - 1792, even when that difference is outside 0..255. -/
theorem C7_no_address_check (A : Int) (b0 : Nat) (rest : List Nat) :
    NodeSpecific.setMessage ⟨A, b0 :: rest⟩ =
      Except.ok { sendNode := some (A - 1792), controlCode := b0, data := rest } := rfl

/-- C8: evaluation at the failing input.  Decoding the REQUEST frame
`[0x00, 0x05]` from address 1793 succeeds and leaves device, fwrev and
model unset, and the diagnostic formatter of `NodeIdentification` then
raises `AttributeError` instead of returning a string, contradicting the
claim that formatting never raises. -/
theorem C8_str_raises_on_request :
    NodeIdentification.setMessage ⟨1793, [0, 5]⟩ =
      Except.ok { sendNode := some 1, destNode := some 5, controlCode := 0,
                  msgType := MsgType.request, device := none, fwrev := none,
                  model := none } ∧
    (NodeIdentification.setMessage ⟨1793, [0, 5]⟩).bind NodeIdentification.strRepr =
      Except.error PyError.attributeError := by
  decide

/-- C9: the control-code description used in formatting returns the fixed
table name for every code 0..19, the string `"Reserved NSM <code>"` for
every code 20..127 and the string `"User Defined NSM <code>"` for every
code from 128 on; being a total function it never fails on 0..255. -/
theorem C9_describe_code (c : Nat) :
    (c < 20 → describeCode c = NodeSpecific.codes.getD c "") ∧
    (20 ≤ c → c ≤ 127 → describeCode c = "Reserved NSM " ++ toString c) ∧
    (128 ≤ c → describeCode c = "User Defined NSM " ++ toString c) := by
  refine ⟨?_, ?_, ?_⟩
  · intro h
    interval_cases c <;> rfl
  · intro h1 h2
    have hn : NodeSpecific.codes.get? c = none := by
      rw [List.get?_eq_none]
      simp only [NodeSpecific.codes, List.length_cons, List.length_nil]
      omega
    unfold describeCode
    rw [hn]
    exact if_pos (by omega)
  · intro h1
    have hn : NodeSpecific.codes.get? c = none := by
      rw [List.get?_eq_none]
      simp only [NodeSpecific.codes, List.length_cons, List.length_nil]
      omega
    unfold describeCode
    rw [hn]
    exact if_neg (by omega)

/-- Witness for C9 at codes 2, 50 and 200. -/
theorem C9_witness :
    describeCode 2 = NodeSpecific.codes.getD 2 "" ∧
    describeCode 50 = "Reserved NSM " ++ toString 50 ∧
    describeCode 200 = "User Defined NSM " ++ toString 200 :=
  ⟨(C9_describe_code 2).1 (by omega),
   (C9_describe_code 50).2.1 (by omega) (by omega),
   (C9_describe_code 200).2.2 (by omega)⟩

theorem setBitRate_no_assert (e : BitRateSet) (v : Int) :
    e.setBitRate v ≠ Except.error PyError.assertionError := by
  unfold BitRateSet.setBitRate
  split
  · simp
  · split
    · simp
    · simp

theorem setNewNode_no_assert (e : NodeIDSet) (v : Int) :
    e.setNewNode v ≠ Except.error PyError.assertionError := by
  unfold NodeIDSet.setNewNode
  split
  · simp
  · simp

theorem ni_setter_chain_no_assert (e0 : NodeIdentification) (x y z : Int) :
    (e0.setDevice x >>= fun e1 => e1.setFwrev y >>= fun e2 =>
      e2.setModel z >>= fun e3 => Except.ok e3) ≠ Except.error PyError.assertionError := by
  unfold NodeIdentification.setDevice
  split
  · rw [exceptBind_error]
    simp
  · rw [exceptBind_ok]
    unfold NodeIdentification.setFwrev
    split
    · rw [exceptBind_error]
      simp
    · rw [exceptBind_ok]
      unfold NodeIdentification.setModel
      split
      · rw [exceptBind_error]
        simp
      · rw [exceptBind_ok]
        simp

theorem ni_no_assert (A : Int) (rest : List Nat) :
    NodeIdentification.setMessage ⟨A, 0 :: rest⟩ ≠ Except.error PyError.assertionError := by
  rcases rest with _ | ⟨d, rest2⟩
  · rw [ni_decode_len1]
    simp
  · by_cases h0 : rest2.length = 0
    · rw [List.length_eq_zero] at h0
      subst h0
      rw [ni_decode_request]
      simp
    · by_cases h6 : rest2.length = 6
      · rcases rest2 with _ | ⟨x2, _ | ⟨x3, _ | ⟨x4, _ | ⟨x5, _ | ⟨x6, _ | ⟨x7, rest3⟩⟩⟩⟩⟩⟩ <;>
          simp only [List.length_cons, List.length_nil] at h6 <;> try omega
        have h3 : rest3 = [] := by
          rw [← List.length_eq_zero]
          omega
        subst h3
        show ((({ sendNode := some (A - 1792), destNode := some d, controlCode := 0,
                  msgType := MsgType.response, device := none, fwrev := none,
                  model := none } : NodeIdentification).setDevice ((x3 : Nat) : Int)) >>= fun e1 =>
              e1.setFwrev ((x4 : Nat) : Int) >>= fun e2 =>
              e2.setModel ((x5 + (x6 <<< 8) + (x7 <<< 16) : Nat) : Int) >>= fun e3 =>
              Except.ok e3) ≠ Except.error PyError.assertionError
        exact ni_setter_chain_no_assert _ _ _ _
      · rw [ni_decode_wrong_size A d rest2 h0 h6]
        simp

theorem brs_no_assert (A : Int) (rest : List Nat) :
    BitRateSet.setMessage ⟨A, 1 :: rest⟩ ≠ Except.error PyError.assertionError := by
  rcases rest with _ | ⟨d, rest2⟩
  · rw [brs_decode_len1]
    simp
  · by_cases h0 : rest2.length = 0
    · rw [List.length_eq_zero] at h0
      subst h0
      rw [brs_decode_success]
      simp
    · by_cases h1 : rest2.length = 1
      · rcases rest2 with _ | ⟨b2, rest3⟩ <;>
          simp only [List.length_cons, List.length_nil] at h1 <;> try omega
        have h3 : rest3 = [] := by
          rw [← List.length_eq_zero]
          omega
        subst h3
        show (if b2 = 0xFF then
                Except.ok { sendNode := some (A - 1792), destNode := some d, controlCode := 1,
                            msgType := MsgType.response, status := some MsgStatus.fail,
                            bitrate := none }
              else
                BitRateSet.setBitRate
                  { sendNode := some (A - 1792), destNode := some d, controlCode := 1,
                    msgType := MsgType.request, status := none, bitrate := none }
                  ((b2 : Nat) : Int)) ≠ Except.error PyError.assertionError
        by_cases hb : b2 = 0xFF
        · rw [if_pos hb]
          simp
        · rw [if_neg hb]
          exact setBitRate_no_assert _ _
      · rw [brs_decode_wrong_size A d rest2 h0 h1]
        simp

theorem nis_no_assert (A : Int) (rest : List Nat) :
    NodeIDSet.setMessage ⟨A, 2 :: rest⟩ ≠ Except.error PyError.assertionError := by
  rcases rest with _ | ⟨d, rest2⟩
  · rw [nis_decode_len1]
    simp
  · by_cases h1 : rest2.length = 1
    · rcases rest2 with _ | ⟨b2, rest3⟩ <;>
        simp only [List.length_cons, List.length_nil] at h1 <;> try omega
      have h3 : rest3 = [] := by
        rw [← List.length_eq_zero]
        omega
      subst h3
      show (if b2 = 0x00 then
              Except.ok { sendNode := some (A - 1792), destNode := some d, controlCode := 2,
                          msgType := MsgType.response, newnode := none }
            else
              NodeIDSet.setNewNode
                { sendNode := some (A - 1792), destNode := some d, controlCode := 2,
                  msgType := MsgType.request, newnode := none }
                ((b2 : Nat) : Int)) ≠ Except.error PyError.assertionError
      by_cases hb : b2 = 0x00
      · rw [if_pos hb]
        simp
      · rw [if_neg hb]
        exact setNewNode_no_assert _ _
    · rw [nis_decode_wrong_size A d rest2 h1]
      simp

/-- C10: for every frame whose first payload byte differs from the
variant's own control code (0, 1 or 2), that variant's decode fails with
the assertion failure (never with `MsgSizeError`), regardless of payload
length, because the assertion precedes the role disambiguation; when the
first byte equals the control code the assertion never fires. -/
theorem C10_wrong_control_code (A : Int) (b0 : Nat) (rest : List Nat) :
    ((b0 ≠ 0 → NodeIdentification.setMessage ⟨A, b0 :: rest⟩ =
        Except.error PyError.assertionError) ∧
     (b0 = 0 → NodeIdentification.setMessage ⟨A, b0 :: rest⟩ ≠
        Except.error PyError.assertionError)) ∧
    ((b0 ≠ 1 → BitRateSet.setMessage ⟨A, b0 :: rest⟩ =
        Except.error PyError.assertionError) ∧
     (b0 = 1 → BitRateSet.setMessage ⟨A, b0 :: rest⟩ ≠
        Except.error PyError.assertionError)) ∧
    ((b0 ≠ 2 → NodeIDSet.setMessage ⟨A, b0 :: rest⟩ =
        Except.error PyError.assertionError) ∧
     (b0 = 2 → NodeIDSet.setMessage ⟨A, b0 :: rest⟩ ≠
        Except.error PyError.assertionError)) := by
  refine ⟨⟨?_, ?_⟩, ⟨?_, ?_⟩, ⟨?_, ?_⟩⟩
  · intro h
    simp [NodeIdentification.setMessage, pyIndex, exceptBind_ok, h]
  · intro h
    subst h
    exact ni_no_assert A rest
  · intro h
    simp [BitRateSet.setMessage, pyIndex, exceptBind_ok, h]
  · intro h
    subst h
    exact brs_no_assert A rest
  · intro h
    simp [NodeIDSet.setMessage, pyIndex, exceptBind_ok, h]
  · intro h
    subst h
    exact nis_no_assert A rest

/-- Witness for C10 at frames with first byte 5 (wrong for all three
variants) and with each variant's own control code. -/
theorem C10_witness :
    NodeIdentification.setMessage ⟨1793, [5, 1]⟩ = Except.error PyError.assertionError ∧
    BitRateSet.setMessage ⟨1793, [5, 1]⟩ = Except.error PyError.assertionError ∧
    NodeIDSet.setMessage ⟨1793, [5, 1]⟩ = Except.error PyError.assertionError ∧
    NodeIdentification.setMessage ⟨1793, [0, 1]⟩ ≠ Except.error PyError.assertionError ∧
    BitRateSet.setMessage ⟨1793, [1, 1]⟩ ≠ Except.error PyError.assertionError ∧
    NodeIDSet.setMessage ⟨1793, [2, 1]⟩ ≠ Except.error PyError.assertionError := by
  have h5 := C10_wrong_control_code 1793 5 [1]
  have h0 := C10_wrong_control_code 1793 0 [1]
  have h1 := C10_wrong_control_code 1793 1 [1]
  have h2 := C10_wrong_control_code 1793 2 [1]
  exact ⟨h5.1.1 (by omega), h5.2.1.1 (by omega), h5.2.2.1 (by omega),
         h0.1.2 rfl, h1.2.1.2 rfl, h2.2.2.2 rfl⟩
